import Mathlib

/-!
Formal model of the `ts_hvac` CSC core (`python/lsst/ts/hvac/`): the
stateful telemetry-aggregation layer of the HVAC bridge.  Python code is
shallowly embedded: stateful methods become explicit state-passing
functions, Python `dict`s become association lists, Python floats are
modelled as rationals, and fallible code returns `Option`/`Except`.
Definitions follow the source files `csc.py`, `mqtt_info_reader.py` and
`utils.py` of the repository.
-/

namespace TsHvac

/-- Severity levels of the external `DynaleneTankLevel` enumeration
(`lsst.ts.xml.enums.HVAC.DynaleneTankLevel`), used by the grouped Dynalene
tank-level messages in `csc.py`. -/
inductive TankLevel where
  | ok
  | warning
  | alarm
  deriving DecidableEq, Repr

/-- A decoded MQTT payload value.  Python payloads after JSON decoding are
booleans, numbers (floats, modelled as rationals) or strings; the Dynalene
tank-level grouping additionally substitutes a `DynaleneTankLevel` ordinal
for the payload (`csc.py` lines 489-494). -/
inductive Value where
  | bool (b : Bool)
  | num (q : Rat)
  | str (s : List Char)
  | tank (t : TankLevel)
  deriving DecidableEq, Repr

/-! ## Device State Store: `InternalItemState` (`csc.py` lines 68-124)

`InternalItemState.__init__` creates `topic`, `item`, `recent_values` and
`data_type`.  The attribute `initial_value` does not exist on a freshly
constructed instance; the only place in the repository that touches it is
the assignment `self.hvac_state[...][telemetry_item].initial_value = enabled`
in `HvacCsc._set_enabled_state` (`csc.py` line 629), and no code ever reads
it.  It is modelled as an `Option Bool` field that starts out `none`. -/

structure InternalItemState where
  topic : List Char
  item : List Char
  recent_values : List Value
  data_type : List Char
  /-- Dead attribute: written by `_set_enabled_state`, never read. -/
  initial_value : Option Bool := none
  deriving DecidableEq, Repr

/-- `InternalItemState.get_most_recent_value` (`csc.py` lines 105-119):
takes the accumulated `recent_values`, resets the list, returns `None` if
it was empty, and otherwise returns the last value after re-appending it
to the (now empty) list. -/
def getMostRecentValue (s : InternalItemState) : Option Value × InternalItemState :=
  match s.recent_values.getLast? with
  | none => (none, { s with recent_values := [] })
  | some v => (some v, { s with recent_values := [v] })

/-- The housekeeping step of `HvacCsc._set_enabled_state`
(`csc.py` lines 624-633): if the MQTT publish succeeded, assign
`initial_value = enabled` on the relevant `InternalItemState`; otherwise do
nothing (the `was_published == False` case is an explicit TODO in the
source). -/
def setEnabledStateSeed (wasPublished : Bool) (enabled : Bool)
    (s : InternalItemState) : InternalItemState :=
  if wasPublished then { s with initial_value := some enabled } else s

/-! ## Configuration-event deduplication (`HvacCsc.send_events`, `csc.py`
lines 365-398)

`send_events` assembles an `event_data` dict, looks up the cached dict
under the key `f"{event_name}:{device_id}"` in `self.event_data`, publishes
the configuration event only when the new dict differs from the cached one,
and then stores the new dict under the key unconditionally. -/

/-- The `self.event_data` dict of the CSC, restricted to the
configuration-snapshot keys, modelled as an association list from the
`f"{event_name}:{device_id}"` key to the event payload. -/
def EventCache (α : Type) : Type := List (String × α)

/-- Python dict assignment `self.event_data[event_data_key] = event_data`:
replace the binding if the key is present, append it otherwise. -/
def cacheInsert {α : Type} (key : String) (v : α) :
    EventCache α → EventCache α
  | [] => [(key, v)]
  | (k, w) :: rest =>
    if k = key then (key, v) :: rest else (k, w) :: cacheInsert key v rest

/-- Python dict lookup `self.event_data.get(event_data_key)` (`None` when
absent). -/
def cacheGet {α : Type} (key : String) : EventCache α → Option α
  | [] => none
  | (k, w) :: rest => if k = key then some w else cacheGet key rest

/-- The deduplication core of `send_events` (`csc.py` lines 394-398) for
one family+device key: compare the assembled payload with the cached one,
report whether the event is published (`event_data != cached_event_data`),
and store the payload unconditionally. -/
def sendEventsDedup {α : Type} [DecidableEq α] (cache : EventCache α)
    (key : String) (payload : α) : Bool × EventCache α :=
  let cached := cacheGet key cache
  (if cached = some payload then false else true, cacheInsert key payload cache)

/-- Run `send_events` for the same family+device key over the payloads of
several successive publish cycles, counting publications. -/
def runConfigCycles {α : Type} [DecidableEq α] (cache : EventCache α)
    (key : String) (payloads : List α) : Nat × EventCache α :=
  payloads.foldl
    (fun acc p =>
      let step := sendEventsDedup acc.2 key p
      (acc.1 + (if step.1 then 1 else 0), step.2))
    (0, cache)

theorem cacheGet_cacheInsert_self {α : Type} (key : String) (v : α)
    (m : EventCache α) : cacheGet key (cacheInsert key v m) = some v := by
  induction m with
  | nil => simp [cacheInsert, cacheGet]
  | cons kv rest ih =>
    obtain ⟨k, w⟩ := kv
    by_cases h : k = key <;> simp [cacheInsert, cacheGet, h, ih]

/-! ## Enabled-device bitmask (`HvacCsc._send_telemetry` and
`HvacCsc._get_topic_enabled_state`, `csc.py` lines 298-363) -/

/-- The data `_get_topic_enabled_state` consults for one MQTT topic:
the index of the topic's device in the `DeviceId` enumeration
(`self.device_id_index`), whether the topic is in `TOPICS_ALWAYS_ENABLED`,
and the `recent_values` list of the topic's switch item
(`COMANDO_ENCENDIDO`, or `ESTADO_FUNCIONAMIENTO` for the device families
in `TOPICS_WITHOUT_COMANDO_ENCENDIDO_ENGLISH`). -/
structure TopicEnabledInfo where
  deviceIdIndex : Nat
  alwaysEnabled : Bool
  switchRecentValues : List Bool

/-- `HvacCsc._get_topic_enabled_state` (`csc.py` lines 298-331): a topic in
`TOPICS_ALWAYS_ENABLED` is enabled; otherwise it is enabled exactly when
the switch item's `recent_values` list is nonempty and its last entry is
true. -/
def getTopicEnabledState (t : TopicEnabledInfo) : Nat × Bool :=
  (t.deviceIdIndex,
    if t.alwaysEnabled then true else t.switchRecentValues.getLast?.getD false)

/-- The `enabled_mask` accumulation of `HvacCsc._send_telemetry`
(`csc.py` lines 334-338): starting from `0b0`, add `1 << device_id_index`
for every topic determined enabled. -/
def sendTelemetryEnabledMask (ts : List TopicEnabledInfo) : Nat :=
  ts.foldl
    (fun mask t =>
      if (getTopicEnabledState t).2
        then mask + (1 <<< (getTopicEnabledState t).1) else mask)
    0

theorem sendTelemetryEnabledMask_foldl_acc (ts : List TopicEnabledInfo)
    (acc : Nat) :
    ts.foldl
      (fun mask t =>
        if (getTopicEnabledState t).2
          then mask + (1 <<< (getTopicEnabledState t).1) else mask)
      acc =
    acc + (((ts.filter fun t => (getTopicEnabledState t).2).map
      fun t => 1 <<< (getTopicEnabledState t).1).sum) := by
  induction ts generalizing acc with
  | nil => simp
  | cons t rest ih =>
    by_cases h : (getTopicEnabledState t).2
    · simp [List.foldl_cons, h, ih, List.filter_cons]
      omega
    · simp [List.foldl_cons, h, ih, List.filter_cons]

/-! ## Claim theorems (C1-C4 group) -/

/-- C2: the value published in the `deviceEnabled` event equals the sum of
`1 << index` over the topics determined enabled, where `index` is the
device's position in the `DeviceId` enumeration. -/
theorem enabledMask_eq_sum_of_shifts (ts : List TopicEnabledInfo) :
    sendTelemetryEnabledMask ts =
      (((ts.filter fun t => (getTopicEnabledState t).2).map
        fun t => 1 <<< (getTopicEnabledState t).1).sum) := by
  simpa using sendTelemetryEnabledMask_foldl_acc ts 0

/-- C1: starting from a configuration snapshot that does not already hold
payload `p` for the family+device key, publishing `p` in two successive
cycles publishes the configuration event exactly once; a third cycle with
a changed payload `q ≠ p` publishes exactly one additional event; and the
stored snapshot is updated after every comparison regardless of whether
the event was published. -/
theorem configEvent_dedup (α : Type) [DecidableEq α] (m : EventCache α)
    (key : String) (p q : α) (h1 : cacheGet key m ≠ some p) (h2 : q ≠ p) :
    (runConfigCycles m key [p, p]).1 = 1 ∧
    (runConfigCycles m key [p, p, q]).1 = 2 ∧
    (∀ (c : EventCache α) (r : α),
      (sendEventsDedup c key r).2 = cacheInsert key r c) := by
  have hpq : p ≠ q := fun h => h2 h.symm
  refine ⟨?_, ?_, fun c r => rfl⟩
  · simp [runConfigCycles, sendEventsDedup, h1, cacheGet_cacheInsert_self]
  · simp [runConfigCycles, sendEventsDedup, h1, cacheGet_cacheInsert_self, hpq]

/-- Witness for C1 at concrete inputs: empty snapshot, payloads `0` and
`1`. -/
theorem configEvent_dedup_witness :
    (cacheGet "evt_chillerConfiguration:1" ([] : EventCache Nat) ≠ some 0) ∧
    ((1 : Nat) ≠ 0) ∧
    ((runConfigCycles ([] : EventCache Nat) "evt_chillerConfiguration:1"
        [0, 0]).1 = 1 ∧
      (runConfigCycles ([] : EventCache Nat) "evt_chillerConfiguration:1"
        [0, 0, 1]).1 = 2 ∧
      (∀ (c : EventCache Nat) (r : Nat),
        (sendEventsDedup c "evt_chillerConfiguration:1" r).2 =
          cacheInsert "evt_chillerConfiguration:1" r c)) :=
  ⟨by simp [cacheGet], by decide,
    configEvent_dedup Nat [] "evt_chillerConfiguration:1" 0 1
      (by simp [cacheGet]) (by decide)⟩

/-- C4: consuming an item accumulator twice in a row without an
intervening record returns the same value both times, and the consume
clears the accumulated list and reseeds it with the single returned value
(leaving it empty when nothing had been recorded). -/
theorem getMostRecentValue_idempotent (s : InternalItemState) :
    (getMostRecentValue (getMostRecentValue s).2).1 = (getMostRecentValue s).1 ∧
    (getMostRecentValue s).2.recent_values =
      ((getMostRecentValue s).1).elim [] (fun v => [v]) := by
  cases h : s.recent_values.getLast? with
  | none => simp [getMostRecentValue, h]
  | some v => simp [getMostRecentValue, h]

/-- C3 (code evaluation at the failing input): after an enable command for
a device whose switch item has no accumulated reports, with the transport
publish succeeding, the Device State Store's item does *not* hold the
commanded value: the commanded `true` lands in the dead `initial_value`
attribute, the `recent_values` accumulator stays empty, and the next
telemetry cycle's `get_most_recent_value` returns `none` instead of the
commanded value. -/
theorem setEnabledState_does_not_seed_telemetry :
    (getMostRecentValue
      (setEnabledStateSeed true true
        { topic := "LSST/PISO01/CHILLER_01".toList,
          item := "COMANDO_ENCENDIDO".toList,
          recent_values := [],
          data_type := "boolean".toList })).1 = none ∧
    (setEnabledStateSeed true true
        { topic := "LSST/PISO01/CHILLER_01".toList,
          item := "COMANDO_ENCENDIDO".toList,
          recent_values := [],
          data_type := "boolean".toList }).recent_values = [] ∧
    (setEnabledStateSeed true true
        { topic := "LSST/PISO01/CHILLER_01".toList,
          item := "COMANDO_ENCENDIDO".toList,
          recent_values := [],
          data_type := "boolean".toList }).initial_value = some true := by
  refine ⟨rfl, rfl, rfl⟩

/-! ## Topic parsing (`MqttInfoReader.extract_topic_and_item`,
`mqtt_info_reader.py` lines 227-264)

Wire-level topic strings are modelled as `List Char`.  Python's
`rsplit("/", 1)` is modelled by searching for the last `'/'`;
`extract_topic_and_item` raises `ValueError` when no slash is present,
modelled by returning `none`. -/

/-- Generic association-list lookup, modelling a Python `dict` lookup with
`dict.get`/`in` (first binding wins). -/
def assocGet {κ α : Type} [DecidableEq κ] (key : κ) : List (κ × α) → Option α
  | [] => none
  | (k, w) :: rest => if k = key then some w else assocGet key rest

/-- Key `"DynTAalarmMonitorOFF"` of `DYNALENE_EVENT_GROUP_DICT`. -/
def taOffKey : List Char := "DynTAalarmMonitorOFF".toList

/-- Key `"DynTAalarmMonitorON"` of `DYNALENE_EVENT_GROUP_DICT`. -/
def taOnKey : List Char := "DynTAalarmMonitorON".toList

/-- Key `"DynTMAalarmMonitorOFF"` of `DYNALENE_EVENT_GROUP_DICT`. -/
def tmaOffKey : List Char := "DynTMAalarmMonitorOFF".toList

/-- Key `"DynTMAalarmMonitorON"` of `DYNALENE_EVENT_GROUP_DICT`. -/
def tmaOnKey : List Char := "DynTMAalarmMonitorON".toList

/-- Key `"DynTankLevelAlarm"` of `DYNALENE_EVENT_GROUP_DICT`. -/
def tankAlarmKey : List Char := "DynTankLevelAlarm".toList

/-- Key `"DynTankLevelWarning"` of `DYNALENE_EVENT_GROUP_DICT`. -/
def tankWarningKey : List Char := "DynTankLevelWarning".toList

/-- Key `"DynTankLevelOK"` of `DYNALENE_EVENT_GROUP_DICT`. -/
def tankOKKey : List Char := "DynTankLevelOK".toList

/-- Canonical group name `"DynTAalarmMonitor"`. -/
def taMonitorName : List Char := "DynTAalarmMonitor".toList

/-- Canonical group name `"DynTMAalarmMonitor"`. -/
def tmaMonitorName : List Char := "DynTMAalarmMonitor".toList

/-- Canonical group name `"DynTankLevel"`. -/
def tankLevelName : List Char := "DynTankLevel".toList

/-- The `DYNALENE_EVENT_GROUP_DICT` of `enums.py` (lines 409-417), in
insertion order. -/
def dynEventGroupDict : List (List Char × List Char) :=
  [(taOffKey, taMonitorName),
   (taOnKey, taMonitorName),
   (tmaOffKey, tmaMonitorName),
   (tmaOnKey, tmaMonitorName),
   (tankAlarmKey, tankLevelName),
   (tankWarningKey, tankLevelName),
   (tankOKKey, tankLevelName)]

/-- Predicate for characters other than the path separator. -/
def notSlash (c : Char) : Bool := !(c == '/')

/-- Python `s.rsplit("/", 1)`: split at the last `'/'`, returning
(part before, part after); `none` when `s` has no `'/'` (in which case the
Python tuple unpacking raises `ValueError`). -/
def rsplitLast (s : List Char) : Option (List Char × List Char) :=
  let rest := s.reverse.dropWhile notSlash
  if rest = [] then none
  else some ((rest.tail).reverse, (s.reverse.takeWhile notSlash).reverse)

/-- The three special Dynalene topic prefixes collapsed by
`extract_topic_and_item` (`mqtt_info_reader.py` lines 254-260). -/
def dynSafetiesTopic : List Char := "LSST/PISO05/DYNALENE/Safeties".toList

def dynStatusTopic : List Char := "LSST/PISO05/DYNALENE/Status".toList

def dynStateTopic : List Char := "LSST/PISO05/DYNALENE/DynaleneState".toList

def dynaleneTopic : List Char := "LSST/PISO05/DYNALENE".toList

/-- `MqttInfoReader.extract_topic_and_item` (`mqtt_info_reader.py` lines
227-264): split at the last slash; collapse the Dynalene
Safeties/Status/DynaleneState topics to the generic Dynalene topic; map
grouped Dynalene event item names to their canonical group name. -/
def extractTopicAndItem (s : List Char) : Option (List Char × List Char) :=
  match rsplitLast s with
  | none => none
  | some (topic, item) =>
    let topic1 :=
      if topic = dynSafetiesTopic ∨ topic = dynStatusTopic ∨ topic = dynStateTopic
        then dynaleneTopic else topic
    let item1 :=
      match assocGet item dynEventGroupDict with
      | some canonical => canonical
      | none => item
    some (topic1, item1)

theorem rsplitLast_append (t i : List Char) (h : '/' ∉ i) :
    rsplitLast (t ++ '/' :: i) = some (t, i) := by
  have hall : ∀ a ∈ i.reverse, notSlash a = true := by
    intro a ha
    rw [List.mem_reverse] at ha
    simp only [notSlash, Bool.not_eq_true', beq_eq_false_iff_ne, ne_eq]
    intro hc
    exact h (hc ▸ ha)
  have hrev : (t ++ '/' :: i).reverse = i.reverse ++ '/' :: t.reverse := by
    simp
  have hns : ¬ notSlash '/' = true := by decide
  rw [rsplitLast, hrev, List.dropWhile_append_of_pos hall,
    List.takeWhile_append_of_pos hall, List.dropWhile_cons_of_neg hns,
    List.takeWhile_cons_of_neg hns]
  simp

theorem rsplitLast_no_slash_in_item (s t i : List Char)
    (h : rsplitLast s = some (t, i)) : '/' ∉ i := by
  rw [rsplitLast] at h
  split at h
  · exact absurd h (by simp)
  · intro hmem
    have h2 : i = (s.reverse.takeWhile notSlash).reverse := by
      have := congrArg (fun o => Option.map Prod.snd o) h
      simpa using this.symm
    rw [h2, List.mem_reverse] at hmem
    have := List.mem_takeWhile_imp hmem
    simp [notSlash] at this

theorem dynEventGroupDict_lookup_spec (k v : List Char)
    (h : assocGet k dynEventGroupDict = some v) :
    ('/' ∉ v) ∧ assocGet v dynEventGroupDict = none := by
  simp only [dynEventGroupDict, assocGet] at h
  repeat' split at h
  all_goals first
    | (injection h with h; subst h; exact ⟨by decide, by decide⟩)
    | injection h

/-- C6: for every wire topic string, extracting the device and item and
re-concatenating them with `'/'` yields a string whose device+item pairing
(as computed by the same extraction) is exactly the pairing of the
original string. -/
theorem extractTopicAndItem_roundtrip (s t i : List Char)
    (h : extractTopicAndItem s = some (t, i)) :
    extractTopicAndItem (t ++ '/' :: i) = some (t, i) := by
  rw [extractTopicAndItem] at h
  cases hr : rsplitLast s with
  | none => rw [hr] at h; exact absurd h (by simp)
  | some ti =>
    obtain ⟨t0, i0⟩ := ti
    rw [hr] at h
    simp only [Option.some.injEq, Prod.mk.injEq] at h
    obtain ⟨ht, hi⟩ := h
    have hi0 : '/' ∉ i0 := rsplitLast_no_slash_in_item s t0 i0 hr
    have hfacts : '/' ∉ i ∧ assocGet i dynEventGroupDict = none := by
      cases hl : assocGet i0 dynEventGroupDict with
      | none =>
        have hii : i = i0 := by rw [← hi, hl]
        rw [hii]
        exact ⟨hi0, hl⟩
      | some c =>
        have hii : i = c := by rw [← hi, hl]
        rw [hii]
        exact dynEventGroupDict_lookup_spec i0 c hl
    obtain ⟨hinoslash, hilookup⟩ := hfacts
    have htspecial :
        ¬ (t = dynSafetiesTopic ∨ t = dynStatusTopic ∨ t = dynStateTopic) := by
      by_cases hcase :
          t0 = dynSafetiesTopic ∨ t0 = dynStatusTopic ∨ t0 = dynStateTopic
      · rw [← ht, if_pos hcase]
        decide
      · rw [← ht, if_neg hcase]
        exact hcase
    rw [extractTopicAndItem, rsplitLast_append t i hinoslash]
    simp [htspecial, hilookup]

/-- Witness for C6 at a concrete catalog wire topic, one that exercises
both the Dynalene topic collapsing and the item-name canonicalization. -/
theorem extractTopicAndItem_roundtrip_witness :
    extractTopicAndItem "LSST/PISO05/DYNALENE/Safeties/DynTankLevelOK".toList =
      some ("LSST/PISO05/DYNALENE".toList, "DynTankLevel".toList) ∧
    extractTopicAndItem
        ("LSST/PISO05/DYNALENE".toList ++ '/' :: "DynTankLevel".toList) =
      some ("LSST/PISO05/DYNALENE".toList, "DynTankLevel".toList) :=
  ⟨by decide,
    extractTopicAndItem_roundtrip
      "LSST/PISO05/DYNALENE/Safeties/DynTankLevelOK".toList
      "LSST/PISO05/DYNALENE".toList "DynTankLevel".toList (by decide)⟩


/-! ## Dynalene event grouping (`HvacCsc._handle_mqtt_messages`,
`csc.py` lines 448-495) -/

/-- Helper for `replaceAll`, structurally recursive on a fuel argument so
that it computes by kernel reduction.  The fuel is always instantiated
with the length of the scanned string, which suffices because every step
consumes at least one character. -/
def replaceAllAux (pat rep : List Char) : Nat → List Char → List Char
  | 0, s => s
  | _ + 1, [] => []
  | fuel + 1, c :: rest =>
    if pat ≠ [] ∧ pat.isPrefixOf (c :: rest) then
      rep ++ replaceAllAux pat rep fuel ((c :: rest).drop pat.length)
    else
      c :: replaceAllAux pat rep fuel rest

/-- Python `s.replace(pat, rep)`: replace every non-overlapping occurrence
of `pat` in `s` by `rep`, scanning left to right.  (For an empty pattern
Python would insert `rep` between all characters; that case is never
exercised here because every `DYNALENE_EVENT_GROUP_DICT` key is nonempty,
and the model leaves `s` unchanged for it.) -/
def replaceAll (pat rep s : List Char) : List Char :=
  replaceAllAux pat rep s.length s

/-- The first key of `DYNALENE_EVENT_GROUP_DICT` (in insertion order) that
is a suffix of the topic-and-item string: the group picked by the
`for dyn_event_grp in DYNALENE_EVENT_GROUP_DICT` loop guarded by
`topic_and_item.endswith(dyn_event_grp)` (`csc.py` lines 450-451). -/
def findDynGroup (s : List Char) : Option (List Char) :=
  (dynEventGroupDict.map Prod.fst).find? (fun k => k.isSuffixOf s)

/-- The suffix `"OFF"` tested by `dyn_event_grp.endswith("OFF")`. -/
def offSuffix : List Char := "OFF".toList

/-- The suffix `"ON"` tested by `dyn_event_grp.endswith("ON")`. -/
def onSuffix : List Char := "ON".toList

/-- The suffix `"OK"` tested by `dyn_event_grp.endswith("OK")`. -/
def okSuffix : List Char := "OK".toList

/-- The suffix `"Warning"` tested by `dyn_event_grp.endswith("Warning")`. -/
def warningSuffix : List Char := "Warning".toList

/-- The payload rewriting of the Dynalene event-grouping block
(`csc.py` lines 460-494) for the matched group `grp`:
for "ON"/"OFF" groups, negate the boolean payload of the "OFF" topic and
pass every other payload through; for the tank-level triple, map a literal
`True` on the "OK"/"Warning" topic to the corresponding
`DynaleneTankLevel` ordinal and everything else to the Alarm ordinal. -/
def dynPayloadTransform (grp : List Char) (payload : Value) : Value :=
  if offSuffix.isSuffixOf grp || onSuffix.isSuffixOf grp then
    if offSuffix.isSuffixOf grp then
      match payload with
      | Value.bool false => Value.bool true
      | Value.bool true => Value.bool false
      | p => p
    else payload
  else
    if okSuffix.isSuffixOf grp ∧ payload = Value.bool true then
      Value.tank TankLevel.ok
    else if warningSuffix.isSuffixOf grp ∧ payload = Value.bool true then
      Value.tank TankLevel.warning
    else
      Value.tank TankLevel.alarm

/-- The whole Dynalene event-grouping block (`csc.py` lines 448-495):
when some group name is a suffix of the topic-and-item string, rewrite the
string to the canonical group name (`topic_and_item.replace(...)`) and
rewrite the payload; otherwise leave both unchanged. -/
def dynaleneGroupResolve (s : List Char) (payload : Value) :
    List Char × Value :=
  match findDynGroup s with
  | none => (s, payload)
  | some grp =>
    (replaceAll grp ((assocGet grp dynEventGroupDict).getD grp) s,
      dynPayloadTransform grp payload)

theorem isSuffixOf_excl (a b s : List Char) (hb : b.isSuffixOf s = true)
    (h1 : a.isSuffixOf b = false) (h2 : b.isSuffixOf a = false) :
    a.isSuffixOf s = false := by
  rw [Bool.eq_false_iff]
  intro ha
  have h1' : ¬ a <:+ b := by
    rw [← List.isSuffixOf_iff_suffix]
    simp [h1]
  have h2' : ¬ b <:+ a := by
    rw [← List.isSuffixOf_iff_suffix]
    simp [h2]
  rw [List.isSuffixOf_iff_suffix] at ha hb
  rcases List.suffix_or_suffix_of_suffix ha hb with hab | hba
  · exact h1' hab
  · exact h2' hba

theorem find?_suffix_cons_pos (s a : List Char) (l : List (List Char))
    (ha : a.isSuffixOf s = true) :
    List.find? (fun k => k.isSuffixOf s) (a :: l) = some a :=
  List.find?_cons_of_pos _ (by simp [ha])

theorem find?_suffix_cons_neg (s a : List Char) (l : List (List Char))
    (ha : a.isSuffixOf s = false) :
    List.find? (fun k => k.isSuffixOf s) (a :: l) =
      List.find? (fun k => k.isSuffixOf s) l :=
  List.find?_cons_of_neg _ (by simp [ha])

theorem findDynGroup_taOff (s : List Char)
    (h : taOffKey.isSuffixOf s = true) :
    findDynGroup s = some taOffKey := by
  unfold findDynGroup dynEventGroupDict
  simp only [List.map_cons, List.map_nil]
  exact find?_suffix_cons_pos s _ _ h

theorem findDynGroup_taOn (s : List Char)
    (h : taOnKey.isSuffixOf s = true) :
    findDynGroup s = some taOnKey := by
  have e0 := isSuffixOf_excl taOffKey taOnKey s h (by decide) (by decide)
  unfold findDynGroup dynEventGroupDict
  simp only [List.map_cons, List.map_nil]
  rw [find?_suffix_cons_neg s taOffKey _ e0]
  exact find?_suffix_cons_pos s _ _ h

theorem findDynGroup_tmaOff (s : List Char)
    (h : tmaOffKey.isSuffixOf s = true) :
    findDynGroup s = some tmaOffKey := by
  have e0 := isSuffixOf_excl taOffKey tmaOffKey s h (by decide) (by decide)
  have e1 := isSuffixOf_excl taOnKey tmaOffKey s h (by decide) (by decide)
  unfold findDynGroup dynEventGroupDict
  simp only [List.map_cons, List.map_nil]
  rw [find?_suffix_cons_neg s taOffKey _ e0,
    find?_suffix_cons_neg s taOnKey _ e1]
  exact find?_suffix_cons_pos s _ _ h

theorem findDynGroup_tmaOn (s : List Char)
    (h : tmaOnKey.isSuffixOf s = true) :
    findDynGroup s = some tmaOnKey := by
  have e0 := isSuffixOf_excl taOffKey tmaOnKey s h (by decide) (by decide)
  have e1 := isSuffixOf_excl taOnKey tmaOnKey s h (by decide) (by decide)
  have e2 := isSuffixOf_excl tmaOffKey tmaOnKey s h (by decide) (by decide)
  unfold findDynGroup dynEventGroupDict
  simp only [List.map_cons, List.map_nil]
  rw [find?_suffix_cons_neg s taOffKey _ e0,
    find?_suffix_cons_neg s taOnKey _ e1,
    find?_suffix_cons_neg s tmaOffKey _ e2]
  exact find?_suffix_cons_pos s _ _ h

theorem findDynGroup_tankAlarm (s : List Char)
    (h : tankAlarmKey.isSuffixOf s = true) :
    findDynGroup s = some tankAlarmKey := by
  have e0 := isSuffixOf_excl taOffKey tankAlarmKey s h (by decide) (by decide)
  have e1 := isSuffixOf_excl taOnKey tankAlarmKey s h (by decide) (by decide)
  have e2 := isSuffixOf_excl tmaOffKey tankAlarmKey s h (by decide) (by decide)
  have e3 := isSuffixOf_excl tmaOnKey tankAlarmKey s h (by decide) (by decide)
  unfold findDynGroup dynEventGroupDict
  simp only [List.map_cons, List.map_nil]
  rw [find?_suffix_cons_neg s taOffKey _ e0,
    find?_suffix_cons_neg s taOnKey _ e1,
    find?_suffix_cons_neg s tmaOffKey _ e2,
    find?_suffix_cons_neg s tmaOnKey _ e3]
  exact find?_suffix_cons_pos s _ _ h

theorem findDynGroup_tankWarning (s : List Char)
    (h : tankWarningKey.isSuffixOf s = true) :
    findDynGroup s = some tankWarningKey := by
  have e0 := isSuffixOf_excl taOffKey tankWarningKey s h (by decide) (by decide)
  have e1 := isSuffixOf_excl taOnKey tankWarningKey s h (by decide) (by decide)
  have e2 := isSuffixOf_excl tmaOffKey tankWarningKey s h (by decide) (by decide)
  have e3 := isSuffixOf_excl tmaOnKey tankWarningKey s h (by decide) (by decide)
  have e4 := isSuffixOf_excl tankAlarmKey tankWarningKey s h (by decide) (by decide)
  unfold findDynGroup dynEventGroupDict
  simp only [List.map_cons, List.map_nil]
  rw [find?_suffix_cons_neg s taOffKey _ e0,
    find?_suffix_cons_neg s taOnKey _ e1,
    find?_suffix_cons_neg s tmaOffKey _ e2,
    find?_suffix_cons_neg s tmaOnKey _ e3,
    find?_suffix_cons_neg s tankAlarmKey _ e4]
  exact find?_suffix_cons_pos s _ _ h

theorem findDynGroup_tankOK (s : List Char)
    (h : tankOKKey.isSuffixOf s = true) :
    findDynGroup s = some tankOKKey := by
  have e0 := isSuffixOf_excl taOffKey tankOKKey s h (by decide) (by decide)
  have e1 := isSuffixOf_excl taOnKey tankOKKey s h (by decide) (by decide)
  have e2 := isSuffixOf_excl tmaOffKey tankOKKey s h (by decide) (by decide)
  have e3 := isSuffixOf_excl tmaOnKey tankOKKey s h (by decide) (by decide)
  have e4 := isSuffixOf_excl tankAlarmKey tankOKKey s h (by decide) (by decide)
  have e5 := isSuffixOf_excl tankWarningKey tankOKKey s h (by decide) (by decide)
  unfold findDynGroup dynEventGroupDict
  simp only [List.map_cons, List.map_nil]
  rw [find?_suffix_cons_neg s taOffKey _ e0,
    find?_suffix_cons_neg s taOnKey _ e1,
    find?_suffix_cons_neg s tmaOffKey _ e2,
    find?_suffix_cons_neg s tmaOnKey _ e3,
    find?_suffix_cons_neg s tankAlarmKey _ e4,
    find?_suffix_cons_neg s tankWarningKey _ e5]
  exact find?_suffix_cons_pos s _ _ h

theorem dynPayloadTransform_tank (grp : List Char) (p : Value)
    (hOFF : offSuffix.isSuffixOf grp = false)
    (hON : onSuffix.isSuffixOf grp = false) :
    dynPayloadTransform grp p =
      if okSuffix.isSuffixOf grp ∧ p = Value.bool true then
        Value.tank TankLevel.ok
      else if warningSuffix.isSuffixOf grp ∧ p = Value.bool true then
        Value.tank TankLevel.warning
      else Value.tank TankLevel.alarm := by
  unfold dynPayloadTransform
  rw [hOFF, hON]
  rfl

/-- C8: for the grouped Dynalene ON/OFF alarm pairs, ingestion negates the
boolean payload of the OFF-variant topic and passes the ON-variant's
boolean through unchanged, and both variants of a pair are rewritten to
the same canonical event field. -/
theorem dynaleneOnOffMerge (sTAoff sTAon sTMAoff sTMAon : List Char)
    (b : Bool)
    (hTAoff : taOffKey.isSuffixOf sTAoff = true)
    (hTAon : taOnKey.isSuffixOf sTAon = true)
    (hTMAoff : tmaOffKey.isSuffixOf sTMAoff = true)
    (hTMAon : tmaOnKey.isSuffixOf sTMAon = true) :
    (dynaleneGroupResolve sTAoff (Value.bool b)).2 = Value.bool (!b) ∧
    (dynaleneGroupResolve sTAon (Value.bool b)).2 = Value.bool b ∧
    (dynaleneGroupResolve sTMAoff (Value.bool b)).2 = Value.bool (!b) ∧
    (dynaleneGroupResolve sTMAon (Value.bool b)).2 = Value.bool b ∧
    (dynaleneGroupResolve
        "LSST/PISO05/DYNALENE/Safeties/DynTAalarmMonitorOFF".toList
        (Value.bool b)).1 =
      (dynaleneGroupResolve
        "LSST/PISO05/DYNALENE/Safeties/DynTAalarmMonitorON".toList
        (Value.bool b)).1 := by
  refine ⟨?_, ?_, ?_, ?_, ?_⟩
  · have hf := findDynGroup_taOff sTAoff hTAoff
    simp only [dynaleneGroupResolve, hf]
    cases b <;> decide
  · have hf := findDynGroup_taOn sTAon hTAon
    simp only [dynaleneGroupResolve, hf]
    cases b <;> decide
  · have hf := findDynGroup_tmaOff sTMAoff hTMAoff
    simp only [dynaleneGroupResolve, hf]
    cases b <;> decide
  · have hf := findDynGroup_tmaOn sTMAon hTMAon
    simp only [dynaleneGroupResolve, hf]
    cases b <;> decide
  · cases b <;> decide

/-- Witness for C8 at the concrete Safeties wire topics with payload
`true`. -/
theorem dynaleneOnOffMerge_witness :
    (taOffKey.isSuffixOf
      "LSST/PISO05/DYNALENE/Safeties/DynTAalarmMonitorOFF".toList = true) ∧
    ((dynaleneGroupResolve
        "LSST/PISO05/DYNALENE/Safeties/DynTAalarmMonitorOFF".toList
        (Value.bool true)).2 = Value.bool false ∧
      (dynaleneGroupResolve
        "LSST/PISO05/DYNALENE/Safeties/DynTAalarmMonitorON".toList
        (Value.bool true)).2 = Value.bool true ∧
      (dynaleneGroupResolve
        "LSST/PISO05/DYNALENE/Safeties/DynTMAalarmMonitorOFF".toList
        (Value.bool true)).2 = Value.bool false ∧
      (dynaleneGroupResolve
        "LSST/PISO05/DYNALENE/Safeties/DynTMAalarmMonitorON".toList
        (Value.bool true)).2 = Value.bool true ∧
      (dynaleneGroupResolve
          "LSST/PISO05/DYNALENE/Safeties/DynTAalarmMonitorOFF".toList
          (Value.bool true)).1 =
        (dynaleneGroupResolve
          "LSST/PISO05/DYNALENE/Safeties/DynTAalarmMonitorON".toList
          (Value.bool true)).1) := by
  refine ⟨by decide, ?_⟩
  have h := dynaleneOnOffMerge
    "LSST/PISO05/DYNALENE/Safeties/DynTAalarmMonitorOFF".toList
    "LSST/PISO05/DYNALENE/Safeties/DynTAalarmMonitorON".toList
    "LSST/PISO05/DYNALENE/Safeties/DynTMAalarmMonitorOFF".toList
    "LSST/PISO05/DYNALENE/Safeties/DynTMAalarmMonitorON".toList
    true (by decide) (by decide) (by decide) (by decide)
  simpa using h

/-- C10: for the grouped Dynalene tank-level OK/Warning/Alarm triple, only
a literal `True` payload on the OK- or Warning-suffixed topic yields the
OK or Warning ordinal; every other case, including a `False` payload on
the OK or Warning topic and any payload on the Alarm topic, is mapped to
the Alarm ordinal. -/
theorem dynaleneTankLevelMap (sOK sWarn sAlarm : List Char) (p : Value)
    (hOK : tankOKKey.isSuffixOf sOK = true)
    (hWarn : tankWarningKey.isSuffixOf sWarn = true)
    (hAlarm : tankAlarmKey.isSuffixOf sAlarm = true) :
    (dynaleneGroupResolve sOK p).2 =
      (if p = Value.bool true then Value.tank TankLevel.ok
        else Value.tank TankLevel.alarm) ∧
    (dynaleneGroupResolve sWarn p).2 =
      (if p = Value.bool true then Value.tank TankLevel.warning
        else Value.tank TankLevel.alarm) ∧
    (dynaleneGroupResolve sAlarm p).2 = Value.tank TankLevel.alarm := by
  refine ⟨?_, ?_, ?_⟩
  · have hf := findDynGroup_tankOK sOK hOK
    simp only [dynaleneGroupResolve, hf]
    show dynPayloadTransform tankOKKey p = _
    rw [dynPayloadTransform_tank tankOKKey p (by decide) (by decide)]
    rw [show okSuffix.isSuffixOf tankOKKey = true from by decide,
      show warningSuffix.isSuffixOf tankOKKey = false from by decide]
    by_cases hp : p = Value.bool true
    · rw [if_pos ⟨rfl, hp⟩, if_pos hp]
    · rw [if_neg (fun hc => hp hc.2),
        if_neg (fun hc => Bool.false_ne_true hc.1), if_neg hp]
  · have hf := findDynGroup_tankWarning sWarn hWarn
    simp only [dynaleneGroupResolve, hf]
    show dynPayloadTransform tankWarningKey p = _
    rw [dynPayloadTransform_tank tankWarningKey p (by decide) (by decide)]
    rw [show okSuffix.isSuffixOf tankWarningKey = false from by decide,
      show warningSuffix.isSuffixOf tankWarningKey = true from by decide]
    by_cases hp : p = Value.bool true
    · rw [if_neg (fun hc => Bool.false_ne_true hc.1), if_pos ⟨rfl, hp⟩,
        if_pos hp]
    · rw [if_neg (fun hc => Bool.false_ne_true hc.1),
        if_neg (fun hc => hp hc.2), if_neg hp]
  · have hf := findDynGroup_tankAlarm sAlarm hAlarm
    simp only [dynaleneGroupResolve, hf]
    show dynPayloadTransform tankAlarmKey p = _
    rw [dynPayloadTransform_tank tankAlarmKey p (by decide) (by decide)]
    rw [show okSuffix.isSuffixOf tankAlarmKey = false from by decide,
      show warningSuffix.isSuffixOf tankAlarmKey = false from by decide]
    rw [if_neg (fun hc => Bool.false_ne_true hc.1),
      if_neg (fun hc => Bool.false_ne_true hc.1)]

/-- Witness for C10 at the concrete Safeties tank-level wire topics with a
`False` payload: all three map to the Alarm ordinal. -/
theorem dynaleneTankLevelMap_witness :
    (tankOKKey.isSuffixOf
      "LSST/PISO05/DYNALENE/Safeties/DynTankLevelOK".toList = true) ∧
    ((dynaleneGroupResolve
        "LSST/PISO05/DYNALENE/Safeties/DynTankLevelOK".toList
        (Value.bool false)).2 =
      (if Value.bool false = Value.bool true then Value.tank TankLevel.ok
        else Value.tank TankLevel.alarm) ∧
      (dynaleneGroupResolve
        "LSST/PISO05/DYNALENE/Safeties/DynTankLevelWarning".toList
        (Value.bool false)).2 =
      (if Value.bool false = Value.bool true then Value.tank TankLevel.warning
        else Value.tank TankLevel.alarm) ∧
      (dynaleneGroupResolve
        "LSST/PISO05/DYNALENE/Safeties/DynTankLevelAlarm".toList
        (Value.bool false)).2 = Value.tank TankLevel.alarm) :=
  ⟨by decide,
    dynaleneTankLevelMap
      "LSST/PISO05/DYNALENE/Safeties/DynTankLevelOK".toList
      "LSST/PISO05/DYNALENE/Safeties/DynTankLevelWarning".toList
      "LSST/PISO05/DYNALENE/Safeties/DynTankLevelAlarm".toList
      (Value.bool false) (by decide) (by decide) (by decide)⟩

/-! ## Limits parsing (`parse_limits`, `utils.py` lines 149-211)

The anchored regular expression
`^(-?\d+)(/| a | ?% a |°C a | bar a |%RH a | LPM a | PSI a | KW a | ppm a )(-?\d+)( ?%| ?°C| bar| hr|%RH| LPM| PSI| KW| ppm| Hz)?$`
is modelled by a hand-rolled matcher: parse the first signed number
(greedy `\d+`), try the separator alternatives in the regex engine's
order, parse the second signed number, and require the remainder to be
empty or one of the unit suffixes.  Backtracking into the greedy digit
groups is never needed because no separator or suffix alternative starts
with a digit or a minus sign.  `\d` is modelled as the ASCII digits (the
catalog strings are ASCII).  Python floats are modelled as rationals. -/

/-- Parse a maximal nonempty run of decimal digits (greedy `\d+`),
returning the parsed value and the remaining characters. -/
def parseDigits (s : List Char) : Option (Nat × List Char) :=
  let ds := s.takeWhile Char.isDigit
  if ds = [] then none
  else
    some (ds.foldl (fun acc c => 10 * acc + (c.toNat - '0'.toNat)) 0,
      s.dropWhile Char.isDigit)

/-- Parse `-?\d+` at the start of the string: an optional minus sign
followed by one or more digits, as a signed integer, with the rest. -/
def parseSignedInt (s : List Char) : Option (Int × List Char) :=
  match s with
  | [] => none
  | c :: rest =>
    if c = '-' then
      (parseDigits rest).map (fun p => (-(p.1 : Int), p.2))
    else
      (parseDigits (c :: rest)).map (fun p => ((p.1 : Int), p.2))

/-- The separator alternatives
`(/| a | ?% a |°C a | bar a |%RH a | LPM a | PSI a | KW a | ppm a )` of
the `parse_limits` regex, in the order the regex engine tries them (the
optional space of ` ?% a ` is greedy, so the variant with the space comes
first). -/
def sepAlternatives : List (List Char) :=
  ["/".toList, " a ".toList, " % a ".toList, "% a ".toList, "°C a ".toList,
   " bar a ".toList, "%RH a ".toList, " LPM a ".toList, " PSI a ".toList,
   " KW a ".toList, " ppm a ".toList]

/-- The admissible remainders after the second number: the optional
end-anchored group `( ?%| ?°C| bar| hr|%RH| LPM| PSI| KW| ppm| Hz)?$`
expanded (empty string for the absent group; space-variants of the
optional spaces listed explicitly). -/
def endAlternatives : List (List Char) :=
  [[], " %".toList, "%".toList, " °C".toList, "°C".toList, " bar".toList,
   " hr".toList, "%RH".toList, " LPM".toList, " PSI".toList, " KW".toList,
   " ppm".toList, " Hz".toList]

/-- The anchored range regex of `parse_limits` (`utils.py` lines
174-178): `none` when the regex does not match, otherwise the two
numbers (`float(match.group(1))`, `float(match.group(3))`, exact on
integer strings). -/
def matchRange (s : List Char) : Option (Int × Int) :=
  match parseSignedInt s with
  | none => none
  | some (lo, r1) =>
    sepAlternatives.findSome? fun sep =>
      if sep.isPrefixOf r1 then
        match parseSignedInt (r1.drop sep.length) with
        | none => none
        | some (hi, r2) =>
          if r2 ∈ endAlternatives then some (lo, hi) else none
      else none

/-- `DEFAULT_LOWER_LIMIT` (`utils.py` line 32). -/
def DEFAULT_LOWER_LIMIT : Rat := -9999

/-- `DEFAULT_UPPER_LIMIT` (`utils.py` line 35). -/
def DEFAULT_UPPER_LIMIT : Rat := 9999

/-- `bar_to_pa` (`utils.py` lines 44-59): 1 bar = 100000 Pa. -/
def barToPa (v : Rat) : Rat := v * 100000

/-- `psi_to_pa` (`utils.py` lines 62-77): 1 PSI = 6894.757293168361 Pa
(astropy's conversion factor as evaluated in double precision). -/
def psiToPa (v : Rat) : Rat := v * (6894757293168361 / 1000000000000)

/-- Python `round(x, 1)` modelled on rationals: round `10 * x` to the
nearest integer with ties to even, then divide by 10. -/
def roundTo1 (x : Rat) : Rat :=
  let y := 10 * x
  let fl : Int := y.floor
  let frac := y - fl
  (if frac < 1/2 then (fl : Rat)
   else if 1/2 < frac then (fl + 1 : Int)
   else if fl % 2 = 0 then (fl : Rat) else (fl + 1 : Int)) / 10

/-- The `^\d$` branch of `parse_limits` (`utils.py` lines 182-184): a
string consisting of exactly one digit. -/
def isSingleDigit : List Char → Bool
  | [c] => c.isDigit
  | _ => false

/-- The branch chain of `parse_limits` (`utils.py` lines 174-201) before
unit conversion; `none` models the `ValueError` raise of the final
`else`. -/
def baseLimits (s : List Char) : Option (Rat × Rat) :=
  match matchRange s with
  | some (lo, hi) => some ((lo : Rat), (hi : Rat))
  | none =>
    if isSingleDigit s then some (0, 100)
    else if s = "1,2,3,4,5,6,7,8".toList then some (1, 8)
    else if s = "1,2,3,4,5,6".toList then some (1, 6)
    else if s = "1,2,3,4,5".toList then some (1, 5)
    else if s = "1,2,3".toList then some (1, 3)
    else if s = "true o false".toList ∨ s = "-".toList ∨ s = "-1".toList ∨
        s = [] then
      some (DEFAULT_LOWER_LIMIT, DEFAULT_UPPER_LIMIT)
    else none

/-- Python's substring test `pat in s` on strings. -/
def containsSub (pat : List Char) : List Char → Bool
  | [] => pat.isEmpty
  | c :: rest => pat.isPrefixOf (c :: rest) || containsSub pat rest

/-- The unit-conversion epilogue of `parse_limits` (`utils.py` lines
203-209): convert to Pa and round when the raw string mentions bar or
PSI. -/
def convertLimits (s : List Char) (lo hi : Rat) : Rat × Rat :=
  let p1 :=
    if containsSub "bar".toList s then
      (roundTo1 (barToPa lo), roundTo1 (barToPa hi))
    else (lo, hi)
  if containsSub "PSI".toList s then
    (roundTo1 (psiToPa p1.1), roundTo1 (psiToPa p1.2))
  else p1

/-- `parse_limits` (`utils.py` lines 149-211): return the parsed and
converted (lower, upper) pair, or raise `ValueError` (modelled as
`Except.error`) on any unrecognized pattern. -/
def parseLimits (s : List Char) : Except (List Char) (Rat × Rat) :=
  match baseLimits s with
  | none => Except.error ("Couldn't match limits_string".toList)
  | some (lo, hi) => Except.ok (convertLimits s lo hi)

/-- The recognized limit-string patterns, read off the branch conditions
of `parse_limits`: the anchored range regex, the single-digit pattern,
the fixed enumerated lists, and the no-limits sentinel strings. -/
def recognizedLimitsPattern (s : List Char) : Bool :=
  (matchRange s).isSome || isSingleDigit s ||
    (s == "1,2,3,4,5,6,7,8".toList) || (s == "1,2,3,4,5,6".toList) ||
    (s == "1,2,3,4,5".toList) || (s == "1,2,3".toList) ||
    (s == "true o false".toList) || (s == "-".toList) || (s == "-1".toList) ||
    s.isEmpty

theorem baseLimits_isSome_iff (s : List Char) :
    (baseLimits s).isSome = recognizedLimitsPattern s := by
  cases hm : matchRange s with
  | some q => simp [baseLimits, recognizedLimitsPattern, hm]
  | none =>
    rw [baseLimits, recognizedLimitsPattern, hm]
    repeat' split
    all_goals simp_all [List.isEmpty_iff]
    all_goals tauto

/-- C7: for every input string, `parse_limits` either matches one of the
fixed recognized patterns (the anchored range regex, the single-digit
pattern, the fixed enumerated lists, or the sentinel no-limits strings)
and returns a (lower, upper) pair, or raises `ValueError`; there is no
silent fallback for unrecognized patterns, and the sentinel strings yield
the defaults (−9999, 9999). -/
theorem parseLimits_total (s : List Char) :
    ((recognizedLimitsPattern s = true ∧ ∃ p, parseLimits s = Except.ok p) ∨
      (recognizedLimitsPattern s = false ∧
        parseLimits s =
          Except.error ("Couldn't match limits_string".toList))) ∧
    parseLimits "true o false".toList =
      Except.ok (DEFAULT_LOWER_LIMIT, DEFAULT_UPPER_LIMIT) ∧
    parseLimits "-".toList =
      Except.ok (DEFAULT_LOWER_LIMIT, DEFAULT_UPPER_LIMIT) ∧
    parseLimits "-1".toList =
      Except.ok (DEFAULT_LOWER_LIMIT, DEFAULT_UPPER_LIMIT) ∧
    parseLimits [] =
      Except.ok (DEFAULT_LOWER_LIMIT, DEFAULT_UPPER_LIMIT) := by
  refine ⟨?_, rfl, rfl, rfl, rfl⟩
  cases hb : baseLimits s with
  | some q =>
    obtain ⟨lo, hi⟩ := q
    left
    refine ⟨?_, convertLimits s lo hi, ?_⟩
    · rw [← baseLimits_isSome_iff, hb]
      rfl
    · unfold parseLimits
      rw [hb]
  | none =>
    right
    refine ⟨?_, ?_⟩
    · rw [← baseLimits_isSome_iff, hb]
      rfl
    · unfold parseLimits
      rw [hb]

theorem matchRange_no_sep (s : List Char) (lo : Int)
    (hp : parseSignedInt s = some (lo, [])) : matchRange s = none := by
  unfold matchRange
  rw [hp]
  rfl

/-- C9: a limits string consisting of exactly one decimal digit matches
none of the range patterns (the range regex does not match it) and is
parsed to lower limit 0 and upper limit 100 rather than raising or
returning the defaults. -/
theorem parseLimits_singleDigit (c : Char) (h : c.isDigit = true) :
    parseLimits [c] = Except.ok (0, 100) ∧ matchRange [c] = none := by
  have hc : ¬ c = '-' := by
    intro hc
    rw [hc] at h
    exact absurd h (by decide)
  have hpd : parseDigits [c] = some (c.toNat - '0'.toNat, []) := by
    unfold parseDigits
    rw [List.takeWhile_cons_of_pos h, List.takeWhile_nil,
      List.dropWhile_cons_of_pos h, List.dropWhile_nil]
    simp
  have hpsi : parseSignedInt [c] =
      some (((c.toNat - '0'.toNat : Nat) : Int), []) := by
    simp only [parseSignedInt]
    rw [if_neg hc, hpd]
    rfl
  have hmr : matchRange [c] = none := matchRange_no_sep [c] _ hpsi
  have hsd : isSingleDigit [c] = true := h
  have hbase : baseLimits [c] = some (0, 100) := by
    unfold baseLimits
    rw [hmr, if_pos hsd]
  have hbar : containsSub "bar".toList [c] = false := by
    simp [containsSub, List.isPrefixOf]
  have hpsiSub : containsSub "PSI".toList [c] = false := by
    simp [containsSub, List.isPrefixOf]
  refine ⟨?_, hmr⟩
  unfold parseLimits
  rw [hbase]
  show Except.ok (convertLimits [c] 0 100) = Except.ok (0, 100)
  unfold convertLimits
  rw [hbar, hpsiSub]
  rfl

/-- Witness for C9 at the concrete limits string `"5"`. -/
theorem parseLimits_singleDigit_witness :
    ('5'.isDigit = true) ∧
    (parseLimits ['5'] = Except.ok (0, 100) ∧ matchRange ['5'] = none) :=
  ⟨by decide, parseLimits_singleDigit '5' (by decide)⟩

/-! ## Message ingestion (`HvacCsc._handle_mqtt_messages`, `csc.py`
lines 400-534) -/

/-- Generic association-list assignment, modelling a Python `dict`
item assignment: replace the first binding of the key, append if
absent. -/
def assocSet {κ α : Type} [DecidableEq κ] (key : κ) (v : α) :
    List (κ × α) → List (κ × α)
  | [] => [(key, v)]
  | (k, w) :: rest =>
    if k = key then (key, v) :: rest else (k, w) :: assocSet key v rest

/-- One inbound MQTT message: the wire topic string and the raw payload
string. -/
structure Msg where
  topic : List Char
  payload : List Char

/-- The literal mode strings coerced to `True` by
`_handle_mqtt_messages` (`csc.py` lines 506-510). -/
def autoStrings : List (List Char) :=
  ["Automatico".toList, "Encendido$20Manual".toList,
    "Apagado$20Manual".toList]

/-- Python `float(payload)` for the payload shapes reaching the bar/PSI
conversion (`csc.py` lines 515, 518): numbers convert exactly, booleans
to 0/1; for other payloads (a non-numeric string, or a grouped Dynalene
ordinal, which in practice never lands on a bar/PSI topic) the model
reports failure, as Python's `float` raises `ValueError` on the strings
that occur here. -/
def valueToFloat : Value → Option Rat
  | Value.num q => some q
  | Value.bool b => some (if b then 1 else 0)
  | _ => none

/-- The data `_handle_mqtt_messages` consults that is fixed outside the
loop.  The JSON decoder, `STRINGS_THAT_CANNOT_BE_DECODED_BY_JSON`, the
`EventItem` enumeration (values and English names), the
`HvacTopicEnglish` resolution, the per-event field sets of the SAL
schema, the `EVENT_TOPIC_DICT_ENGLISH` keys and the
`TOPICS_WITH_DATA_IN_BAR`/`TOPICS_WITH_DATA_IN_PSI` sets live in the
English `enums.py` variants and the external SAL schema, which are not
part of this source snapshot; they are abstract parameters here, and the
theorems below hold for every instantiation. -/
structure IngestEnv where
  /-- `json.loads`, `none` modelling `json.decoder.JSONDecodeError`. -/
  jsonDecode : List Char → Option Value
  /-- `STRINGS_THAT_CANNOT_BE_DECODED_BY_JSON`. -/
  undecodableStrings : List (List Char)
  /-- The values of the `EventItem` enumeration. -/
  eventItemValues : List (List Char)
  /-- `EventItem(value).name` for a matching item value. -/
  eventItemName : List Char → List Char
  /-- `HvacTopicEnglish(topic).name`; `none` models the `ValueError` for
  an unknown topic (caught and logged at `csc.py` lines 435-438). -/
  hvacTopicName : List Char → Option (List Char)
  /-- Whether the CSC has the event attribute `evt_<name>` and its SAL
  topic has the given item among its fields (`csc.py` lines 429-430). -/
  eventHasField : List Char → List Char → Bool
  /-- The keys of `EVENT_TOPIC_DICT_ENGLISH`. -/
  eventTopicDict : List (List Char)
  /-- `TOPICS_WITH_DATA_IN_BAR`. -/
  barTopics : List (List Char)
  /-- `TOPICS_WITH_DATA_IN_PSI`. -/
  psiTopics : List (List Char)

/-- The mutable state the ingestion loop writes to: `self.hvac_state`
(MQTT topic → item → `InternalItemState`) and the discrete-event buffer
part of `self.event_data` (event name → field → payload). -/
structure IngestState where
  hvacState : List (List Char × List (List Char × InternalItemState))
  eventData : List (List Char × List (List Char × Value))

/-- The body of the `while` loop of `_handle_mqtt_messages` (`csc.py`
lines 403-520) for one popped message: the updated state and the events
published directly from the loop body (`event.set_write` at line 502,
reported as topic-and-item with payload), or `Except.error` where the
Python code raises out of the loop. -/
def processMessage (env : IngestEnv) (st : IngestState) (msg : Msg) :
    Except (List Char) (IngestState × List (List Char × Value)) :=
  -- lines 407-417: decode the payload; a JSONDecodeError is logged and
  -- the message skipped.
  let payloadOpt : Option Value :=
    if msg.payload ∈ env.undecodableStrings then some (Value.str msg.payload)
    else env.jsonDecode msg.payload
  match payloadOpt with
  | none => Except.ok (st, [])
  | some payload =>
    -- line 419: split the wire topic; the ValueError of a slashless
    -- topic is not caught anywhere in the loop.
    match extractTopicAndItem msg.topic with
    | none => Except.error ("ValueError: not enough values to unpack".toList)
    | some (topic, item) =>
      -- lines 421-438: if the item names an `EventItem` and the topic
      -- resolves and the event has the field, buffer the payload and
      -- continue; an unknown topic is logged and falls through.
      let captured : Option IngestState :=
        if item ∈ env.eventItemValues then
          match env.hvacTopicName topic with
          | some tname =>
            if env.eventHasField tname item then
              let evtName := "evt_".toList ++ tname
              let fields := (assocGet evtName st.eventData).getD []
              let fields1 := assocSet (env.eventItemName item) payload fields
              let newEventData := assocSet evtName fields1 st.eventData
              some { st with eventData := newEventData }
            else none
          | none => none
        else none
      match captured with
      | some st1 => Except.ok (st1, [])
      | none =>
        -- lines 440-446: unknown topic or item: log and continue.
        match assocGet topic st.hvacState with
        | none => Except.ok (st, [])
        | some items =>
          match assocGet item items with
          | none => Except.ok (st, [])
          | some itemState =>
            -- lines 448-495: Dynalene event grouping.
            let resolved := dynaleneGroupResolve msg.topic payload
            let topicAndItem1 := resolved.1
            let payload1 := resolved.2
            -- lines 497-503: some Dynalene topics are emitted as events.
            if topicAndItem1 ∈ env.eventTopicDict then
              Except.ok (st, [(topicAndItem1, payload1)])
            else
              -- lines 505-512: literal mode strings become `True`.
              let payload2 :=
                match payload1 with
                | Value.str t =>
                  if t ∈ autoStrings || containsSub "AUTOMATICO".toList t then
                    Value.bool true
                  else Value.str t
                | p => p
              -- lines 513-518: bar and PSI conversion.
              let payload3Opt :=
                if topicAndItem1 ∈ env.barTopics then
                  (valueToFloat payload2).map (fun q => Value.num (barToPa q))
                else some payload2
              match payload3Opt with
              | none => Except.error ("ValueError: float conversion".toList)
              | some payload3 =>
                let payload4Opt :=
                  if topicAndItem1 ∈ env.psiTopics then
                    (valueToFloat payload3).map (fun q => Value.num (psiToPa q))
                  else some payload3
                match payload4Opt with
                | none => Except.error ("ValueError: float conversion".toList)
                | some payload4 =>
                  -- line 520: append to the item's recent_values.
                  let itemState1 :=
                    { itemState with recent_values :=
                        itemState.recent_values ++ [payload4] }
                  let newHvacState :=
                    assocSet topic (assocSet item itemState1 items) st.hvacState
                  Except.ok ({ st with hvacState := newHvacState }, [])

/-- Drain the whole inbound queue
(`while len(self.mqtt_client.msgs) != 0`, `csc.py` line 403): process
messages first to last, accumulating the directly published events; an
uncaught exception aborts the pass (and is fatal to the telemetry task,
see `_publish_telemetry_regularly`). -/
def handleMqttMessages (env : IngestEnv) (st : IngestState) :
    List Msg → Except (List Char) (IngestState × List (List Char × Value))
  | [] => Except.ok (st, [])
  | msg :: rest =>
    match processMessage env st msg with
    | Except.error e => Except.error e
    | Except.ok (st1, out1) =>
      match handleMqttMessages env st1 rest with
      | Except.error e => Except.error e
      | Except.ok (st2, out2) => Except.ok (st2, out1 ++ out2)

/-- A concrete ingestion environment: a JSON decoder recognizing the
payload `"true"`, the mode strings as undecodable strings, and an
otherwise empty schema. -/
def envC : IngestEnv where
  jsonDecode := fun s =>
    if s = "true".toList then some (Value.bool true) else none
  undecodableStrings := autoStrings
  eventItemValues := []
  eventItemName := fun i => i
  hvacTopicName := fun _ => none
  eventHasField := fun _ _ => false
  eventTopicDict := []
  barTopics := []
  psiTopics := []

/-- A concrete ingestion state: an empty telemetry snapshot and an empty
event buffer. -/
def stC : IngestState := ⟨[], []⟩

/-- C5 as stated is refuted at a concrete input: an inbound message whose
wire topic `"FOO"` contains no slash — hence is not present in the live
schema snapshot (which is empty here) — and whose payload decodes fine
makes the ingestion pass raise instead of discarding the message:
`extract_topic_and_item` raises `ValueError` from the failed
`rsplit("/", 1)` unpacking, nothing in `_handle_mqtt_messages` catches
it, and the rest of the queue is abandoned rather than drained. -/
theorem ingestion_raises_on_slashless_topic :
    extractTopicAndItem "FOO".toList = none ∧
    assocGet "FOO".toList stC.hvacState = none ∧
    processMessage envC stC ⟨"FOO".toList, "true".toList⟩ =
      Except.error ("ValueError: not enough values to unpack".toList) ∧
    handleMqttMessages envC stC
        [⟨"FOO".toList, "true".toList⟩,
          ⟨"LSST/PISO01/CHILLER_01/TEMPERATURA_AMBIENTE".toList,
            "true".toList⟩] =
      Except.error ("ValueError: not enough values to unpack".toList) :=
  ⟨rfl, rfl, rfl, rfl⟩

/-- C5 amended: for every inbound message whose payload fails to decode
(it is not one of the undecodable-string literals and JSON decoding
fails), or whose wire topic splits on a slash into a device+item pair
with the device unknown both to the topic enumeration and to the live
telemetry snapshot, the ingestion pass does not raise: the message is
discarded leaving the state unchanged and publishing nothing, and the
rest of the queue is processed as if the message were absent — so the
discarded message's value never enters the state that telemetry and
events are computed from.  (A message whose topic has no slash at all
instead aborts the pass, see the counterexample.) -/
theorem ingestion_discards_bad_messages (env : IngestEnv)
    (st : IngestState) (msg : Msg) (rest : List Msg)
    (h : (msg.payload ∉ env.undecodableStrings ∧
        env.jsonDecode msg.payload = none) ∨
      (∃ t i, extractTopicAndItem msg.topic = some (t, i) ∧
        env.hvacTopicName t = none ∧ assocGet t st.hvacState = none)) :
    processMessage env st msg = Except.ok (st, []) ∧
    handleMqttMessages env st (msg :: rest) =
      handleMqttMessages env st rest := by
  have hmain : processMessage env st msg = Except.ok (st, []) := by
    rcases h with ⟨h1, h2⟩ | ⟨t, i, he, hn, hs⟩
    · simp [processMessage, h1, h2]
    · unfold processMessage
      cases hpo : (if msg.payload ∈ env.undecodableStrings
          then some (Value.str msg.payload)
          else env.jsonDecode msg.payload) with
      | none => rfl
      | some payload =>
        rw [he]
        by_cases hev : i ∈ env.eventItemValues
        · simp [hev, hn, hs]
        · simp [hev, hs]
  refine ⟨hmain, ?_⟩
  cases hr : handleMqttMessages env st rest with
  | error e => simp [handleMqttMessages, hmain, hr]
  | ok p => simp [handleMqttMessages, hmain, hr]

/-- Witness for the amended C5 at a concrete input: a message with an
undecodable payload on a topic with a slash, in front of a second
message, is skipped and the queue keeps draining. -/
theorem ingestion_discards_bad_messages_witness :
    (("xyz".toList ∉ envC.undecodableStrings ∧
        envC.jsonDecode "xyz".toList = none) ∨
      (∃ t i, extractTopicAndItem "FOO/ITEM".toList = some (t, i) ∧
        envC.hvacTopicName t = none ∧ assocGet t stC.hvacState = none)) ∧
    (processMessage envC stC ⟨"FOO/ITEM".toList, "xyz".toList⟩ =
        Except.ok (stC, []) ∧
      handleMqttMessages envC stC
          [⟨"FOO/ITEM".toList, "xyz".toList⟩] =
        handleMqttMessages envC stC []) :=
  ⟨Or.inl ⟨by decide, rfl⟩,
    ingestion_discards_bad_messages envC stC
      ⟨"FOO/ITEM".toList, "xyz".toList⟩ [] (Or.inl ⟨by decide, rfl⟩)⟩
